import Mathlib

/-!
Verification of the Avito auto-answering bot (src/main.py).

The development shallowly embeds the program's core: the OAuth token
lifecycle (`get_token`, `ensure_token_valid`), the authenticated request
path with its single 401 retry (`request`), and the per-tick message
processing loop (`process_new_messages`, `polling_loop`).  Network
effects are supplied as explicit oracle arguments; Python exceptions
become `Option`/flag results carrying the state at the point of the
raise; Python dictionaries carrying HTTP headers become association
lists with last-write-wins update semantics.
-/

set_option autoImplicit false

namespace AvitoBot

/-- Python truthiness of the `self.token` field: `None` and the empty
string are falsy, any other string is truthy. -/
def truthy : Option String → Bool
  | none => false
  | some s => !s.isEmpty

/-- The JSON value found at key `expires_in` of the token response:
either a numeric lifetime in seconds, or a non-numeric value (for which
Python's `token_data.get('expires_in', 3600) - 300` raises a
`TypeError`). -/
inductive ExpiresIn where
  | num (n : Int)
  | nonNum
  deriving DecidableEq, Repr

/-- The decoded JSON body of a 2xx token response.  `access_token = none`
models a body without that key (Python raises `KeyError`);
`expires_in = none` models a body without that key (Python defaults to
3600). -/
structure TokenData where
  access_token : Option String
  expires_in : Option ExpiresIn
  deriving DecidableEq, Repr

/-- Outcome of one `POST /token` exchange as seen by `get_token`:
`failure` covers a transport error, a non-2xx status (raised by
`raise_for_status`) and an undecodable body; `success` carries the
decoded JSON. -/
inductive FetchOutcome where
  | failure
  | success (td : TokenData)
  deriving DecidableEq, Repr

/-- The two mutable fields of `AvitoClient`: `self.token` and
`self.token_expires` (expiry as an absolute instant, in seconds). -/
structure ClientState where
  token : Option String
  token_expires : Option Int
  deriving DecidableEq, Repr

/-- `AvitoClient.get_token`, src/main.py lines 40-61.  Takes the current
time and the network outcome of the token exchange; returns the client
state at the point the function returns or raises, and `some tok` when
it returned normally, `none` when it raised.  The assignment order of
the source is preserved: `self.token` is written first, and only then is
`expires_in - 300` evaluated and `self.token_expires` written. -/
def get_token (now : Int) (f : FetchOutcome) (s : ClientState) :
    ClientState × Option String :=
  match f with
  | .failure => (s, none)
  | .success td =>
    match td.access_token with
    | none => (s, none)
    | some tok =>
      let s1 : ClientState := { s with token := some tok }
      match td.expires_in with
      | some .nonNum => (s1, none)
      | some (.num n) => ({ s1 with token_expires := some (now + n - 300) }, some tok)
      | none => ({ s1 with token_expires := some (now + 3600 - 300) }, some tok)

/-- The condition of `ensure_token_valid`, src/main.py line 65:
`not self.token or (self.token_expires and datetime.now() >= self.token_expires)`. -/
def needsFetch (now : Int) (s : ClientState) : Bool :=
  !truthy s.token ||
    (match s.token_expires with
     | some e => decide (now ≥ e)
     | none => false)

/-- `AvitoClient.ensure_token_valid`, src/main.py lines 63-66.  Returns
the resulting state, `some ()` on normal return / `none` when the inner
fetch raised, and the number of `get_token` calls performed. -/
def ensure_token_valid (now : Int) (f : FetchOutcome) (s : ClientState) :
    ClientState × Option Unit × Nat :=
  if needsFetch now s then
    let r := get_token now f s
    (r.1, r.2.map fun _ => (), 1)
  else
    (s, some (), 0)

/-- HTTP headers as carried by the Python `dict`; an association list
whose keys are unique by construction of `dictSet`. -/
abbrev Headers := List (String × String)

/-- `d[k] = v` on a Python dict: overwrite in place when the key exists,
append otherwise. -/
def dictSet (d : Headers) (k v : String) : Headers :=
  if d.any (fun p => p.1 = k) then
    d.map (fun p => if p.1 = k then (k, v) else p)
  else
    d ++ [(k, v)]

/-- `d.update(src)` on Python dicts: every entry of `src` overwrites. -/
def dictUpdate (d src : Headers) : Headers :=
  src.foldl (fun acc p => dictSet acc p.1 p.2) d

/-- `d.get(k)` on a Python dict. -/
def dictGet (d : Headers) (k : String) : Option String :=
  (d.find? (fun p => p.1 = k)).map (fun p => p.2)

/-- The `f"Bearer {self.token}"` interpolation; Python renders `None` as
the string `None`. -/
def bearer (t : Option String) : String :=
  "Bearer " ++ (match t with | some s => s | none => "None")

/-- Outcome of one HTTP call on the request path: a transport-level
failure (connection error, timeout), or a response with a status code
and a decoded body. -/
inductive HttpResult where
  | transport
  | resp (status : Nat) (body : String)
  deriving DecidableEq, Repr

/-- `httpx` success test used by `raise_for_status`: 2xx statuses. -/
def is2xx (st : Nat) : Bool :=
  200 ≤ st && st < 300

/-- One HTTP call issued by `request`, recorded with the headers it
carried. -/
structure IssuedCall where
  headers : Headers
  deriving DecidableEq, Repr

/-- Result of `AvitoClient.request`: the final client state, `some body`
on normal return / `none` when the call raised, the total number of
`get_token` calls, and the list of HTTP calls issued, in order. -/
structure ReqResult where
  state : ClientState
  result : Option String
  fetches : Nat
  calls : List IssuedCall
  deriving DecidableEq, Repr

/-- `AvitoClient.request`, src/main.py lines 68-103.  `fetchEnsure` is
the network outcome a token exchange would see during the initial
`ensure_token_valid`; `fetchRetry` the outcome during the 401 retry
path; `attempt1`/`attempt2` the outcomes of the first and the retried
HTTP call; `callerHeaders` the optional `headers` keyword argument,
merged into the defaults with `dict.update`. -/
def request (now : Int) (fetchEnsure fetchRetry : FetchOutcome)
    (attempt1 attempt2 : HttpResult) (callerHeaders : Option Headers)
    (s : ClientState) : ReqResult :=
  let ens := ensure_token_valid now fetchEnsure s
  match ens.2.1 with
  | none => ⟨ens.1, none, ens.2.2, []⟩
  | some _ =>
    let s1 := ens.1
    let nF := ens.2.2
    let base : Headers :=
      [("Authorization", bearer s1.token), ("Content-Type", "application/json")]
    let headers :=
      match callerHeaders with
      | some h => dictUpdate base h
      | none => base
    match attempt1 with
    | .transport => ⟨s1, none, nF, [⟨headers⟩]⟩
    | .resp st1 b1 =>
      if st1 = 401 then
        let gt := get_token now fetchRetry s1
        match gt.2 with
        | none => ⟨gt.1, none, nF + 1, [⟨headers⟩]⟩
        | some _ =>
          let s2 := gt.1
          let headers2 := dictSet headers "Authorization" (bearer s2.token)
          match attempt2 with
          | .transport => ⟨s2, none, nF + 1, [⟨headers⟩, ⟨headers2⟩]⟩
          | .resp st2 b2 =>
            if is2xx st2 then ⟨s2, some b2, nF + 1, [⟨headers⟩, ⟨headers2⟩]⟩
            else ⟨s2, none, nF + 1, [⟨headers⟩, ⟨headers2⟩]⟩
      else if is2xx st1 then ⟨s1, some b1, nF, [⟨headers⟩]⟩
      else ⟨s1, none, nF, [⟨headers⟩]⟩

/-- One message of a fetched page, as read by `process_new_messages`:
`direction` is `message.get('direction')` (`none` when absent),
`is_read` the truthiness of `message.get('is_read')`, and
`content_text` the value at `message['content']['text']` (`none` when
either key is absent, in which case Python defaults to the empty
string). -/
structure Message where
  direction : Option String
  is_read : Bool
  content_text : Option String
  deriving DecidableEq, Repr

/-- `message.get('content', {}).get('text', '')`, src/main.py line 171. -/
def getText (m : Message) : String :=
  m.content_text.getD ""

/-- The per-message filter of src/main.py lines 166-173: skip unless the
message is inbound, unread, and has non-empty text. -/
def shouldProcess (m : Message) : Bool :=
  if m.direction ≠ some "in" || m.is_read then false
  else !(getText m).isEmpty

/-- One entry of the chat listing; `id` is `chat.get('id')` (`none` when
the key is absent). -/
structure Chat where
  id : Option String
  deriving DecidableEq, Repr

/-- Observable side effects of one tick, in program order.  Each event
carries an `ok` flag: `false` records that the underlying call raised. -/
inductive Event where
  | listMessages (chatId : String) (ok : Bool)
  | generate (chatId : String) (text : String) (ok : Bool)
  | send (chatId : String) (reply : String) (ok : Bool)
  | markRead (chatId : String) (ok : Bool)
  deriving DecidableEq, Repr

/-- The collaborators of one tick, as oracles: `gen` is
`generate_response` (`none` models a raise), `sendOk`/`markOk` whether
`send_message`/`mark_chat_as_read` succeed, and `messagesOf` the page
`get_messages` returns per chat (`none` models a raise). -/
structure Oracle where
  gen : String → String → Option String
  sendOk : String → String → Bool
  markOk : String → Bool
  messagesOf : String → Option (List Message)

/-- The inner message loop of `process_new_messages`, src/main.py lines
166-192.  Returns the emitted events and `true` when the loop ran to
completion, `false` when an unguarded exception (a generation failure)
escaped it.  Send and mark-read each sit in their own try/except, so
their failures are recorded and the loop continues. -/
def processMessages (o : Oracle) (chatId : String) :
    List Message → List Event × Bool
  | [] => ([], true)
  | m :: rest =>
    if shouldProcess m then
      match o.gen (getText m) chatId with
      | none => ([.generate chatId (getText m) false], false)
      | some reply =>
        let sOk := o.sendOk chatId reply
        let mOk := o.markOk chatId
        let r := processMessages o chatId rest
        (.generate chatId (getText m) true :: .send chatId reply sOk ::
          .markRead chatId mOk :: r.1, r.2)
    else processMessages o chatId rest

/-- The body of the chat loop, src/main.py lines 152-192: skip a chat
whose `id` is absent or falsy, fetch its messages (a raise escapes with
the events so far), then run the message loop. -/
def processChat (o : Oracle) (c : Chat) : List Event × Bool :=
  match c.id with
  | none => ([], true)
  | some cid =>
    if cid.isEmpty then ([], true)
    else
      match o.messagesOf cid with
      | none => ([.listMessages cid false], false)
      | some msgs =>
        let r := processMessages o cid msgs
        (.listMessages cid true :: r.1, r.2)

/-- The chat loop itself: chats are processed in order until one raises,
which aborts the remainder (the exception is caught by the function's
outer try/except). -/
def processChats (o : Oracle) : List Chat → List Event
  | [] => []
  | c :: rest =>
    let r := processChat o c
    if r.2 then r.1 ++ processChats o rest else r.1

/-- Outcome of the initial `get_chats` call of a tick: a raise, or the
decoded `chats` list (`chats_response.get('chats', [])`). -/
inductive ChatListing where
  | failure
  | ok (chats : List Chat)
  deriving DecidableEq, Repr

/-- `process_new_messages`, src/main.py lines 139-195.  The whole body
sits under one try/except, so the function never raises: a failed chat
listing yields an empty trace, an empty listing returns before any
further call, and otherwise the chat loop runs until done or until an
unguarded exception is caught by the outer handler. -/
def process_new_messages (o : Oracle) (listing : ChatListing) : List Event :=
  match listing with
  | .failure => []
  | .ok chats => processChats o chats

/-- The inputs one tick of the polling loop consumes. -/
structure TickInput where
  listing : ChatListing
  oracle : Oracle

/-- What the outer loop does per iteration, observably. -/
inductive LoopEvent where
  | tick (events : List Event)
  | sleep (seconds : Nat)
  deriving DecidableEq, Repr

/-- `polling_loop`, src/main.py lines 206-215, run for a finite schedule
of ticks: each iteration runs `process_new_messages` under its own
try/except and then sleeps 60 seconds, regardless of the tick's
outcome. -/
def polling_loop : List TickInput → List LoopEvent
  | [] => []
  | t :: ts =>
    .tick (process_new_messages t.oracle t.listing) :: .sleep 60 :: polling_loop ts

/-! ## Token lifecycle: claims C5, C6, C7 -/

/-- Helper: when the held token is valid, `ensure_token_valid` is a
no-op performing zero fetches. -/
theorem ensure_token_valid_noop (now : Int) (f : FetchOutcome) (s : ClientState)
    (h : needsFetch now s = false) :
    ensure_token_valid now f s = (s, some (), 0) := by
  simp [ensure_token_valid, h]

/-- C5 counterexample: a 2xx token response carrying an access token
together with a non-numeric `expires_in` makes `get_token` raise after
having already stored the new token, so the failing fetch does NOT leave
the stored token and expiry as they were: starting from the never-
fetched state, the token ends up set while the expiry stays unset. -/
theorem C5_partial_update_counterexample :
    (get_token 0 (.success ⟨some "new", some .nonNum⟩) ⟨none, none⟩).2 = none ∧
    (get_token 0 (.success ⟨some "new", some .nonNum⟩) ⟨none, none⟩).1 ≠
      (⟨none, none⟩ : ClientState) ∧
    (get_token 0 (.success ⟨some "new", some .nonNum⟩) ⟨none, none⟩).1.token = some "new" ∧
    (get_token 0 (.success ⟨some "new", some .nonNum⟩) ⟨none, none⟩).1.token_expires = none := by
  refine ⟨rfl, ?_, rfl, rfl⟩
  intro h
  simpa [get_token] using congrArg ClientState.token h

/-- C5 (amended): a transport/non-2xx/undecodable token fetch, and a 2xx
response lacking the access-token field, raise and leave both stored
fields exactly as they were; but a 2xx response carrying an access token
with a non-numeric lifetime stores the token and then raises before the
expiry is written, so token and expiry can be updated partially. -/
theorem C5_get_token_failure_state (now : Int) (s : ClientState) :
    (get_token now .failure s = (s, none)) ∧
    (∀ ei, get_token now (.success ⟨none, ei⟩) s = (s, none)) ∧
    (∀ tok, get_token now (.success ⟨some tok, some .nonNum⟩) s =
      ({ s with token := some tok }, none)) :=
  ⟨rfl, fun _ => rfl, fun _ => rfl⟩

/-- C6: a successful fetch with declared lifetime L at time `now` stores
expiry `now + L - 300`; for L > 300 that instant is in the future, and
for L ≤ 300 the stored state already needs a fetch at time `now` (the
token is immediately stale for refresh purposes). -/
theorem C6_token_expiry (now : Int) (s : ClientState) (tok : String) (L : Int) :
    (get_token now (.success ⟨some tok, some (.num L)⟩) s).1.token_expires =
      some (now + L - 300) ∧
    (L > 300 → now < now + L - 300) ∧
    (L ≤ 300 →
      needsFetch now (get_token now (.success ⟨some tok, some (.num L)⟩) s).1 = true) := by
  refine ⟨rfl, fun h => by omega, fun h => ?_⟩
  have he : now ≥ now + L - 300 := by omega
  simp [get_token, needsFetch, he]

theorem C6_token_expiry_witness :
    (get_token 1000 (.success ⟨some "t", some (.num 3600)⟩) ⟨none, none⟩).1.token_expires =
      some 4300 ∧ (1000 : Int) < 4300 ∧
    needsFetch 1000 (get_token 1000 (.success ⟨some "t", some (.num 200)⟩)
      ⟨none, none⟩).1 = true := by
  have h1 := C6_token_expiry 1000 ⟨none, none⟩ "t" 3600
  have h2 := C6_token_expiry 1000 ⟨none, none⟩ "t" 200
  refine ⟨h1.1, ?_, h2.2.2 (by norm_num)⟩
  have := h1.2.1 (by norm_num)
  omega

/-- C7: `ensure_token_valid` fetches exactly once when no token is held
(`self.token` falsy) or when the current time is at or past the stored
expiry; it fetches nothing and leaves the state untouched when a token
is held and the stored expiry is in the future. -/
theorem C7_ensure_token_valid (now : Int) (f : FetchOutcome) (s : ClientState) :
    (truthy s.token = false → (ensure_token_valid now f s).2.2 = 1) ∧
    (∀ e, s.token_expires = some e → now ≥ e →
      (ensure_token_valid now f s).2.2 = 1) ∧
    (∀ e, truthy s.token = true → s.token_expires = some e → now < e →
      (ensure_token_valid now f s).2.2 = 0 ∧ (ensure_token_valid now f s).1 = s) := by
  refine ⟨fun h => ?_, fun e he h => ?_, fun e ht he h => ?_⟩
  · simp [ensure_token_valid, needsFetch, h]
  · simp [ensure_token_valid, needsFetch, he, h]
  · have hn : needsFetch now s = false := by
      simp [needsFetch, ht, he]
      omega
    rw [ensure_token_valid_noop now f s hn]
    exact ⟨rfl, rfl⟩

theorem C7_ensure_token_valid_witness :
    (ensure_token_valid 0 .failure ⟨none, none⟩).2.2 = 1 ∧
    (ensure_token_valid 50 .failure ⟨some "t", some 40⟩).2.2 = 1 ∧
    (ensure_token_valid 0 .failure ⟨some "t", some 10⟩).2.2 = 0 ∧
    (ensure_token_valid 0 .failure ⟨some "t", some 10⟩).1 =
      (⟨some "t", some 10⟩ : ClientState) := by
  have h1 := (C7_ensure_token_valid 0 .failure ⟨none, none⟩).1 (by decide)
  have h2 := (C7_ensure_token_valid 50 .failure ⟨some "t", some 40⟩).2.1 40 rfl (by norm_num)
  have h3 := (C7_ensure_token_valid 0 .failure ⟨some "t", some 10⟩).2.2 10 (by decide) rfl
    (by norm_num)
  exact ⟨h1, h2, h3.1, h3.2⟩

/-! ## Message processing: claims C2, C3, C8, C9, C10 -/

/-- The reply carried by a send event, if any. -/
def replyOfEvent : Event → Option String
  | .send _ r _ => some r
  | _ => none

/-- The text carried by a generation event, if any. -/
def textOfEvent : Event → Option String
  | .generate _ t _ => some t
  | _ => none

/-- The replies handed to `send_message` during a trace, in order. -/
def sentReplies (evs : List Event) : List String :=
  evs.filterMap replyOfEvent

/-- The texts handed to `generate_response` during a trace, in order. -/
def generatedTexts (evs : List Event) : List String :=
  evs.filterMap textOfEvent

theorem processMessages_skip (o : Oracle) (cid : String) (m : Message)
    (rest : List Message) (h : shouldProcess m = false) :
    processMessages o cid (m :: rest) = processMessages o cid rest := by
  simp [processMessages, h]

theorem processMessages_cons_ok (o : Oracle) (cid : String) (m : Message)
    (rest : List Message) (reply : String) (h : shouldProcess m = true)
    (hg : o.gen (getText m) cid = some reply) :
    processMessages o cid (m :: rest) =
      (Event.generate cid (getText m) true ::
       Event.send cid reply (o.sendOk cid reply) ::
       Event.markRead cid (o.markOk cid) ::
       (processMessages o cid rest).1,
       (processMessages o cid rest).2) := by
  simp [processMessages, h, hg]

theorem processMessages_genFail (o : Oracle) (cid : String) (m : Message)
    (rest : List Message) (h : shouldProcess m = true)
    (hg : o.gen (getText m) cid = none) :
    processMessages o cid (m :: rest) =
      ([Event.generate cid (getText m) false], false) := by
  simp [processMessages, h, hg]

theorem processMessages_done (o : Oracle) (cid : String) :
    ∀ msgs : List Message,
      (∀ m ∈ msgs, shouldProcess m = true → (o.gen (getText m) cid).isSome = true) →
      (processMessages o cid msgs).2 = true
  | [], _ => rfl
  | m :: rest, h => by
    have hrest := processMessages_done o cid rest
      (fun m2 h2 => h m2 (List.mem_cons_of_mem _ h2))
    by_cases hm : shouldProcess m = true
    · cases hg : o.gen (getText m) cid with
      | none =>
        have := h m (List.mem_cons_self m rest) hm
        simp [hg] at this
      | some reply =>
        rw [processMessages_cons_ok o cid m rest reply hm hg]
        exact hrest
    · rw [processMessages_skip o cid m rest (by simpa using hm)]
      exact hrest

theorem sentReplies_processMessages (o : Oracle) (cid : String)
    (g : String → String) (hg : ∀ t, o.gen t cid = some (g t)) :
    ∀ msgs : List Message,
      sentReplies (processMessages o cid msgs).1 =
        (msgs.filter shouldProcess).map (fun m => g (getText m))
  | [] => rfl
  | m :: rest => by
    have ih := sentReplies_processMessages o cid g hg rest
    by_cases hm : shouldProcess m = true
    · rw [processMessages_cons_ok o cid m rest (g (getText m)) hm (hg (getText m))]
      simpa [sentReplies, replyOfEvent, List.filter_cons, hm] using ih
    · have hm2 : shouldProcess m = false := by simpa using hm
      rw [processMessages_skip o cid m rest hm2]
      simpa [List.filter_cons, hm2] using ih

theorem generatedTexts_processMessages (o : Oracle) (cid : String)
    (g : String → String) (hg : ∀ t, o.gen t cid = some (g t)) :
    ∀ msgs : List Message,
      generatedTexts (processMessages o cid msgs).1 =
        (msgs.filter shouldProcess).map getText
  | [] => rfl
  | m :: rest => by
    have ih := generatedTexts_processMessages o cid g hg rest
    by_cases hm : shouldProcess m = true
    · rw [processMessages_cons_ok o cid m rest (g (getText m)) hm (hg (getText m))]
      simpa [generatedTexts, textOfEvent, List.filter_cons, hm] using ih
    · have hm2 : shouldProcess m = false := by simpa using hm
      rw [processMessages_skip o cid m rest hm2]
      simpa [List.filter_cons, hm2] using ih

theorem shouldProcess_iff (m : Message) :
    shouldProcess m = true ↔
      m.direction = some "in" ∧ m.is_read = false ∧
        ∃ t, m.content_text = some t ∧ t ≠ "" := by
  rcases m with ⟨d, r, c⟩
  have h0 : ("" : String).isEmpty = true := rfl
  by_cases hd : d = some "in"
  · subst hd
    cases r
    · cases c with
      | none => simp [shouldProcess, getText, h0]
      | some t =>
        simp [shouldProcess, getText]
        rw [Bool.eq_false_iff]
        exact not_congr (String.isEmpty_iff t)
    · simp [shouldProcess]
  · simp [shouldProcess, hd]

theorem processChats_cons_done (o : Oracle) (c : Chat) (rest : List Chat)
    (h : (processChat o c).2 = true) :
    processChats o (c :: rest) = (processChat o c).1 ++ processChats o rest := by
  simp [processChats, h]

theorem processChats_cons_fail (o : Oracle) (c : Chat) (rest : List Chat)
    (h : (processChat o c).2 = false) :
    processChats o (c :: rest) = (processChat o c).1 := by
  simp [processChats, h]

/-- Sample messages and collaborator oracles used to instantiate the
claim theorems at concrete inputs. -/
def msgIn : Message := ⟨some "in", false, some "hi"⟩

def msgIn2 : Message := ⟨some "in", false, some "yo"⟩

def msgIn3 : Message := ⟨some "in", false, some "ok"⟩

def msgOut : Message := ⟨some "out", false, some "bye"⟩

def oracleEcho : Oracle where
  gen := fun t _ => some ("re: " ++ t)
  sendOk := fun _ _ => true
  markOk := fun _ => true
  messagesOf := fun _ => some [msgIn, msgIn2, msgOut, msgIn3]

def oracleFailSide : Oracle where
  gen := fun t _ => some ("re: " ++ t)
  sendOk := fun _ _ => false
  markOk := fun _ => false
  messagesOf := fun _ => some [msgIn]

def oracleGenFail : Oracle where
  gen := fun _ _ => none
  sendOk := fun _ _ => true
  markOk := fun _ => true
  messagesOf := fun _ => some [msgIn]

/-- C2: with a generation collaborator that answers every text, the
replies generated and then sent for a fetched page are exactly those for
the messages that are inbound, unread and have non-empty text, in page
order; a message failing the filter contributes no generation and no
send. -/
theorem C2_replies_exactly_for_qualifying (o : Oracle) (cid : String)
    (g : String → String) (hg : ∀ t, o.gen t cid = some (g t)) :
    (∀ m, shouldProcess m = true ↔
       m.direction = some "in" ∧ m.is_read = false ∧
         ∃ t, m.content_text = some t ∧ t ≠ "") ∧
    (∀ msgs, sentReplies (processMessages o cid msgs).1 =
       (msgs.filter shouldProcess).map (fun m => g (getText m))) ∧
    (∀ msgs, generatedTexts (processMessages o cid msgs).1 =
       (msgs.filter shouldProcess).map getText) ∧
    (∀ m rest, shouldProcess m = false →
       processMessages o cid (m :: rest) = processMessages o cid rest) :=
  ⟨shouldProcess_iff,
   sentReplies_processMessages o cid g hg,
   generatedTexts_processMessages o cid g hg,
   fun m rest h => processMessages_skip o cid m rest h⟩

theorem C2_replies_exactly_for_qualifying_witness :
    sentReplies (processMessages oracleEcho "c" [msgIn, msgIn2, msgOut, msgIn3]).1 =
      ["re: hi", "re: yo", "re: ok"] ∧
    processMessages oracleEcho "c" [⟨some "in", false, some ""⟩] =
      processMessages oracleEcho "c" [] := by
  have h := C2_replies_exactly_for_qualifying oracleEcho "c"
    (fun t => "re: " ++ t) (fun t => rfl)
  constructor
  · rw [h.2.1 [msgIn, msgIn2, msgOut, msgIn3]]
    rfl
  · exact h.2.2.2 ⟨some "in", false, some ""⟩ [] (by decide)

/-- C3: a send failure or a mark-read failure is local to its message:
for a qualifying message whose reply was generated, the trace always
records the send attempt followed by the mark-read attempt (each with
its own success flag) and then the processing of the remaining messages;
send/mark-read outcomes never make the message loop raise, so later
chats of the same tick are still processed. -/
theorem C3_send_markread_failures_isolated (o : Oracle) (cid : String) :
    (∀ m rest reply, shouldProcess m = true → o.gen (getText m) cid = some reply →
       processMessages o cid (m :: rest) =
         (Event.generate cid (getText m) true ::
          Event.send cid reply (o.sendOk cid reply) ::
          Event.markRead cid (o.markOk cid) ::
          (processMessages o cid rest).1,
          (processMessages o cid rest).2)) ∧
    (∀ msgs, (∀ m ∈ msgs, shouldProcess m = true →
        (o.gen (getText m) cid).isSome = true) →
      (processMessages o cid msgs).2 = true) ∧
    (∀ c rest, (processChat o c).2 = true →
       processChats o (c :: rest) = (processChat o c).1 ++ processChats o rest) :=
  ⟨fun m rest reply h hg => processMessages_cons_ok o cid m rest reply h hg,
   processMessages_done o cid,
   fun c rest h => processChats_cons_done o c rest h⟩

theorem C3_send_markread_failures_isolated_witness :
    processMessages oracleFailSide "c" [msgIn, msgIn2] =
      (Event.generate "c" "hi" true :: Event.send "c" "re: hi" false ::
       Event.markRead "c" false ::
       (processMessages oracleFailSide "c" [msgIn2]).1,
       (processMessages oracleFailSide "c" [msgIn2]).2) ∧
    (processMessages oracleFailSide "c" [msgIn, msgIn2]).2 = true := by
  have h := C3_send_markread_failures_isolated oracleFailSide "c"
  exact ⟨h.1 msgIn [msgIn2] "re: hi" (by decide) rfl,
         h.2.1 [msgIn, msgIn2] (by decide)⟩

/-- C8: a generation failure is unguarded: it ends the message loop at
the failing message with no further events, escapes the chat loop so no
later chat of the tick is processed, yet every loop iteration still
emits its tick and the 60 second sleep regardless of the tick's
outcome — the polling loop and the process survive. -/
theorem C8_generation_failure_aborts_tick (o : Oracle) (cid : String) :
    (∀ m rest, shouldProcess m = true → o.gen (getText m) cid = none →
       processMessages o cid (m :: rest) =
         ([Event.generate cid (getText m) false], false)) ∧
    (∀ c rest, (processChat o c).2 = false →
       processChats o (c :: rest) = (processChat o c).1) ∧
    (∀ t ts, polling_loop (t :: ts) =
       LoopEvent.tick (process_new_messages t.oracle t.listing) ::
       LoopEvent.sleep 60 :: polling_loop ts) :=
  ⟨fun m rest h hg => processMessages_genFail o cid m rest h hg,
   fun c rest h => processChats_cons_fail o c rest h,
   fun _ _ => rfl⟩

theorem C8_generation_failure_aborts_tick_witness :
    processMessages oracleGenFail "c" [msgIn, msgIn2] =
      ([Event.generate "c" "hi" false], false) ∧
    processChats oracleGenFail [⟨some "c"⟩, ⟨some "d"⟩] =
      (processChat oracleGenFail ⟨some "c"⟩).1 := by
  have h := C8_generation_failure_aborts_tick oracleGenFail "c"
  exact ⟨h.1 msgIn [msgIn2] (by decide) rfl,
         h.2.1 ⟨some "c"⟩ [⟨some "d"⟩] (by decide)⟩

/-- C9: an empty chat listing produces an empty tick trace — no
message-listing, generation, send or mark-read event — and the loop then
sleeps 60 seconds before running the next tick. -/
theorem C9_empty_listing_noop (o : Oracle) (ts : List TickInput) :
    process_new_messages o (.ok []) = [] ∧
    polling_loop (⟨.ok [], o⟩ :: ts) =
      LoopEvent.tick [] :: LoopEvent.sleep 60 :: polling_loop ts :=
  ⟨rfl, rfl⟩

/-- C10: a chat entry whose `id` is absent or empty is skipped silently:
it contributes no event at all and the remaining chats of the tick are
processed exactly as if it were not there. -/
theorem C10_chat_without_id_skipped (o : Oracle) (c : Chat) (rest : List Chat)
    (h : c.id = none ∨ c.id = some "") :
    processChat o c = ([], true) ∧
    processChats o (c :: rest) = processChats o rest := by
  have h0 : ("" : String).isEmpty = true := rfl
  have hc : processChat o c = ([], true) := by
    rcases h with h | h <;> simp [processChat, h, h0]
  refine ⟨hc, ?_⟩
  rw [processChats_cons_done o c rest (by rw [hc])]
  rw [hc]
  rfl

theorem C10_chat_without_id_skipped_witness :
    processChat oracleEcho ⟨none⟩ = ([], true) ∧
    processChats oracleEcho [⟨none⟩, ⟨some "d"⟩] =
      processChats oracleEcho [⟨some "d"⟩] :=
  C10_chat_without_id_skipped oracleEcho ⟨none⟩ [⟨some "d"⟩] (Or.inl rfl)

/-! ## Request path and headers: claims C1, C4 -/

theorem find?_append_pairs (p : String × String → Bool) :
    ∀ l1 l2 : List (String × String),
      (l1 ++ l2).find? p = ((l1.find? p).orElse fun _ => l2.find? p)
  | [], _ => rfl
  | a :: l1, l2 => by
    by_cases ha : p a = true
    · rw [List.cons_append, List.find?_cons_of_pos _ ha, List.find?_cons_of_pos _ ha]
      rfl
    · rw [List.cons_append, List.find?_cons_of_neg _ (by simpa using ha),
        List.find?_cons_of_neg _ (by simpa using ha)]
      exact find?_append_pairs p l1 l2

theorem find?_map_set_self (k v : String) :
    ∀ d : Headers, d.any (fun p => p.1 = k) = true →
      (d.map (fun p => if p.1 = k then (k, v) else p)).find? (fun p => p.1 = k) =
        some (k, v)
  | [], h => by simp at h
  | p :: rest, h => by
    by_cases hp : p.1 = k
    · rw [List.map_cons, if_pos hp, List.find?_cons_of_pos _ (by simp)]
    · have h2 : rest.any (fun p => p.1 = k) = true := by
        simpa [hp] using h
      rw [List.map_cons, if_neg hp, List.find?_cons_of_neg _ (by simpa using hp)]
      exact find?_map_set_self k v rest h2

theorem find?_map_set_ne (k v k2 : String) (h : k2 ≠ k) :
    ∀ d : Headers,
      (d.map (fun p => if p.1 = k then (k, v) else p)).find? (fun p => p.1 = k2) =
        d.find? (fun p => p.1 = k2)
  | [] => rfl
  | p :: rest => by
    by_cases hp : p.1 = k
    · rw [List.map_cons, if_pos hp,
        List.find?_cons_of_neg _ (by simpa using Ne.symm h),
        List.find?_cons_of_neg _ (by simp [hp]; exact fun he => h he.symm)]
      exact find?_map_set_ne k v k2 h rest
    · rw [List.map_cons, if_neg hp]
      by_cases hp2 : p.1 = k2
      · rw [List.find?_cons_of_pos _ (by simpa using hp2),
          List.find?_cons_of_pos _ (by simpa using hp2)]
      · rw [List.find?_cons_of_neg _ (by simpa using hp2),
          List.find?_cons_of_neg _ (by simpa using hp2)]
        exact find?_map_set_ne k v k2 h rest

/-- Setting a key on a header dict makes lookup of that key return the
new value. -/
theorem dictGet_dictSet_self (d : Headers) (k v : String) :
    dictGet (dictSet d k v) k = some v := by
  unfold dictSet dictGet
  by_cases hany : d.any (fun p => p.1 = k) = true
  · rw [if_pos hany, find?_map_set_self k v d hany]
    rfl
  · rw [if_neg hany, find?_append_pairs]
    have hnone : d.find? (fun p => p.1 = k) = none := by
      rw [List.find?_eq_none]
      intro x hx hxk
      exact hany (List.any_eq_true.mpr ⟨x, hx, hxk⟩)
    rw [hnone, List.find?_cons_of_pos _ (by simp)]
    rfl

/-- Setting a key on a header dict leaves every other key's lookup
unchanged. -/
theorem dictGet_dictSet_ne (d : Headers) (k v k2 : String) (h : k2 ≠ k) :
    dictGet (dictSet d k v) k2 = dictGet d k2 := by
  unfold dictSet dictGet
  by_cases hany : d.any (fun p => p.1 = k) = true
  · rw [if_pos hany, find?_map_set_ne k v k2 h d]
  · rw [if_neg hany, find?_append_pairs,
      List.find?_cons_of_neg _ (by simpa using Ne.symm h)]
    cases d.find? (fun p => p.1 = k2) <;> rfl

/-- C4 counterexample: with a held valid token `tok` and caller headers
carrying `Authorization: X`, the first issued HTTP call carries `X`, not
the current bearer token — `dict.update` lets the caller override the
Authorization header too. -/
theorem C4_caller_auth_override_counterexample :
    dictGet ((request 0 .failure .failure (.resp 200 "ok") (.resp 200 "ok")
        (some [("Authorization", "X")]) ⟨some "tok", none⟩).calls.headD
        ⟨[]⟩).headers "Authorization" = some "X" ∧
    some "X" ≠ some (bearer (some "tok")) := by
  refine ⟨by decide, by decide⟩

/-- C4 (amended): caller-supplied headers take precedence over the
defaults for every key, including Authorization, on the first attempt;
only the 401 retry rebuilds the Authorization header to the freshly
fetched bearer token, leaving all other caller headers in force. -/
theorem C4_caller_headers_precedence (now : Int) (fE fR : FetchOutcome)
    (a1 a2 : HttpResult) (h : Headers) (s : ClientState)
    (hs : needsFetch now s = false) :
    ((request now fE fR a1 a2 (some h) s).calls.head? =
      some ⟨dictUpdate [("Authorization", bearer s.token),
                        ("Content-Type", "application/json")] h⟩) ∧
    (∀ b1 tok L, fR = .success ⟨some tok, some (.num L)⟩ →
      a1 = .resp 401 b1 →
      ∀ call ∈ ((request now fE fR a1 a2 (some h) s).calls.drop 1),
        dictGet call.headers "Authorization" = some ("Bearer " ++ tok) ∧
        ∀ k2, k2 ≠ "Authorization" →
          dictGet call.headers k2 =
            dictGet (dictUpdate [("Authorization", bearer s.token),
                                 ("Content-Type", "application/json")] h) k2) := by
  have hens := ensure_token_valid_noop now fE s hs
  constructor
  · cases a1 with
    | transport => simp [request, hens]
    | resp st1 b1 =>
      by_cases h401 : st1 = 401
      · cases hg : (get_token now fR s).2 with
        | none => simp [request, hens, h401, hg]
        | some tk =>
          cases a2 with
          | transport => simp [request, hens, h401, hg]
          | resp st2 b2 =>
            by_cases h2 : is2xx st2 = true
            · simp [request, hens, h401, hg, h2]
            · simp [request, hens, h401, hg, h2]
      · by_cases h2 : is2xx st1 = true
        · simp [request, hens, h401, h2]
        · simp [request, hens, h401, h2]
  · rintro b1 tok L rfl rfl call hcall
    have hvals :
        (get_token now (.success ⟨some tok, some (.num L)⟩) s).2 = some tok ∧
        (get_token now (.success ⟨some tok, some (.num L)⟩) s).1.token = some tok :=
      ⟨rfl, rfl⟩
    have hcalls :
        ((request now fE (.success ⟨some tok, some (.num L)⟩) (.resp 401 b1) a2
          (some h) s).calls.drop 1) =
          [⟨dictSet (dictUpdate [("Authorization", bearer s.token),
                                 ("Content-Type", "application/json")] h)
              "Authorization" ("Bearer " ++ tok)⟩] := by
      cases a2 with
      | transport => simp [request, hens, hvals.1, hvals.2, bearer]
      | resp st2 b2 =>
        by_cases h2 : is2xx st2 = true
        · simp [request, hens, hvals.1, hvals.2, bearer, h2]
        · simp [request, hens, hvals.1, hvals.2, bearer, h2]
    rw [hcalls] at hcall
    rcases List.mem_singleton.mp hcall with rfl
    exact ⟨dictGet_dictSet_self _ _ _, fun k2 hk2 => dictGet_dictSet_ne _ _ _ _ hk2⟩

theorem C4_caller_headers_precedence_witness :
    ((request 0 .failure (.success ⟨some "new", some (.num 3600)⟩) (.resp 401 "e")
        (.resp 200 "ok") (some [("Authorization", "X"), ("City", "Kazan")])
        ⟨some "tok", none⟩).calls.head? =
      some ⟨dictUpdate [("Authorization", bearer (some "tok")),
                        ("Content-Type", "application/json")]
              [("Authorization", "X"), ("City", "Kazan")]⟩) ∧
    dictGet (((request 0 .failure (.success ⟨some "new", some (.num 3600)⟩)
        (.resp 401 "e") (.resp 200 "ok")
        (some [("Authorization", "X"), ("City", "Kazan")])
        ⟨some "tok", none⟩).calls.drop 1).headD ⟨[]⟩).headers "Authorization" =
      some ("Bearer " ++ "new") := by
  have h := C4_caller_headers_precedence 0 .failure
    (.success ⟨some "new", some (.num 3600)⟩) (.resp 401 "e") (.resp 200 "ok")
    [("Authorization", "X"), ("City", "Kazan")] ⟨some "tok", none⟩ (by decide)
  refine ⟨h.1, ?_⟩
  exact (h.2 "e" "new" 3600 rfl rfl _ (by decide)).1

/-- Helper: fact about the success status test at status 401. -/
theorem is2xx_401 : is2xx 401 = false := rfl

/-- C1: the request path issues at most two HTTP calls, and issues a
second one only when the first response had status 401.  With a valid
held token: a 401 answered by a 2xx on the retry returns the second
response's body after exactly one token refetch; 401 twice raises after
the second call with exactly one refetch and no third call; a non-401
non-2xx status raises after one call and zero refetches; a transport
failure raises after one call and zero refetches. -/
theorem C1_retry_policy :
    (∀ (now : Int) (fE fR : FetchOutcome) (a1 a2 : HttpResult)
        (ch : Option Headers) (s : ClientState),
      (request now fE fR a1 a2 ch s).calls.length ≤ 2) ∧
    (∀ (now : Int) (fE fR : FetchOutcome) (a1 a2 : HttpResult)
        (ch : Option Headers) (s : ClientState),
      (request now fE fR a1 a2 ch s).calls.length = 2 →
        ∃ b, a1 = HttpResult.resp 401 b) ∧
    (∀ (now : Int) (fE fR : FetchOutcome) (b1 : String) (st2 : Nat) (b2 : String)
        (ch : Option Headers) (s : ClientState) (tok : String) (L : Int),
      needsFetch now s = false →
      fR = .success ⟨some tok, some (.num L)⟩ →
      is2xx st2 = true →
      (request now fE fR (.resp 401 b1) (.resp st2 b2) ch s).result = some b2 ∧
      (request now fE fR (.resp 401 b1) (.resp st2 b2) ch s).fetches = 1 ∧
      (request now fE fR (.resp 401 b1) (.resp st2 b2) ch s).calls.length = 2) ∧
    (∀ (now : Int) (fE fR : FetchOutcome) (b1 b2 : String)
        (ch : Option Headers) (s : ClientState) (tok : String) (L : Int),
      needsFetch now s = false →
      fR = .success ⟨some tok, some (.num L)⟩ →
      (request now fE fR (.resp 401 b1) (.resp 401 b2) ch s).result = none ∧
      (request now fE fR (.resp 401 b1) (.resp 401 b2) ch s).fetches = 1 ∧
      (request now fE fR (.resp 401 b1) (.resp 401 b2) ch s).calls.length = 2) ∧
    (∀ (now : Int) (fE fR : FetchOutcome) (st1 : Nat) (b1 : String)
        (a2 : HttpResult) (ch : Option Headers) (s : ClientState),
      needsFetch now s = false → st1 ≠ 401 → is2xx st1 = false →
      (request now fE fR (.resp st1 b1) a2 ch s).result = none ∧
      (request now fE fR (.resp st1 b1) a2 ch s).fetches = 0 ∧
      (request now fE fR (.resp st1 b1) a2 ch s).calls.length = 1) ∧
    (∀ (now : Int) (fE fR : FetchOutcome) (a2 : HttpResult)
        (ch : Option Headers) (s : ClientState),
      needsFetch now s = false →
      (request now fE fR .transport a2 ch s).result = none ∧
      (request now fE fR .transport a2 ch s).fetches = 0 ∧
      (request now fE fR .transport a2 ch s).calls.length = 1) := by
  refine ⟨?_, ?_, ?_, ?_, ?_, ?_⟩
  · intro now fE fR a1 a2 ch s
    cases hE : (ensure_token_valid now fE s).2.1 with
    | none => simp [request, hE]
    | some u =>
      cases a1 with
      | transport => simp [request, hE]
      | resp st1 b1 =>
        by_cases h401 : st1 = 401
        · cases hg : (get_token now fR (ensure_token_valid now fE s).1).2 with
          | none => simp [request, hE, h401, hg]
          | some tk =>
            cases a2 with
            | transport => simp [request, hE, h401, hg]
            | resp st2 b2 =>
              by_cases h2 : is2xx st2 = true
              · simp [request, hE, h401, hg, h2]
              · simp [request, hE, h401, hg, h2]
        · by_cases h2 : is2xx st1 = true
          · simp [request, hE, h401, h2]
          · simp [request, hE, h401, h2]
  · intro now fE fR a1 a2 ch s hlen
    cases hE : (ensure_token_valid now fE s).2.1 with
    | none => simp [request, hE] at hlen
    | some u =>
      cases a1 with
      | transport => simp [request, hE] at hlen
      | resp st1 b1 =>
        by_cases h401 : st1 = 401
        · exact ⟨b1, by rw [h401]⟩
        · by_cases h2 : is2xx st1 = true
          · simp [request, hE, h401, h2] at hlen
          · simp [request, hE, h401, h2] at hlen
  · rintro now fE fR b1 st2 b2 ch s tok L hs rfl h2
    have hens := ensure_token_valid_noop now fE s hs
    refine ⟨?_, ?_, ?_⟩ <;>
      simp [request, hens, get_token, h2]
  · rintro now fE fR b1 b2 ch s tok L hs rfl
    have hens := ensure_token_valid_noop now fE s hs
    refine ⟨?_, ?_, ?_⟩ <;>
      simp [request, hens, get_token, is2xx_401]
  · intro now fE fR st1 b1 a2 ch s hs h401 h2
    have hens := ensure_token_valid_noop now fE s hs
    refine ⟨?_, ?_, ?_⟩ <;>
      simp [request, hens, h401, h2]
  · intro now fE fR a2 ch s hs
    have hens := ensure_token_valid_noop now fE s hs
    refine ⟨?_, ?_, ?_⟩ <;>
      simp [request, hens]

theorem C1_retry_policy_witness :
    (request 0 .failure (.success ⟨some "new", some (.num 3600)⟩) (.resp 401 "e")
      (.resp 200 "ok") none ⟨some "tok", none⟩).result = some "ok" ∧
    (request 0 .failure (.success ⟨some "new", some (.num 3600)⟩) (.resp 401 "e")
      (.resp 200 "ok") none ⟨some "tok", none⟩).fetches = 1 ∧
    (request 0 .failure (.success ⟨some "new", some (.num 3600)⟩) (.resp 401 "e")
      (.resp 401 "e2") none ⟨some "tok", none⟩).result = none ∧
    (request 0 .failure (.success ⟨some "new", some (.num 3600)⟩) (.resp 401 "e")
      (.resp 401 "e2") none ⟨some "tok", none⟩).calls.length = 2 ∧
    (request 0 .failure .failure (.resp 500 "boom") (.resp 200 "ok") none
      ⟨some "tok", none⟩).result = none ∧
    (request 0 .failure .failure (.resp 500 "boom") (.resp 200 "ok") none
      ⟨some "tok", none⟩).calls.length = 1 ∧
    (request 0 .failure .failure .transport (.resp 200 "ok") none
      ⟨some "tok", none⟩).result = none := by
  have h200 := C1_retry_policy.2.2.1 0 .failure
    (.success ⟨some "new", some (.num 3600)⟩) "e" 200 "ok" none
    ⟨some "tok", none⟩ "new" 3600 (by decide) rfl (by decide)
  have h401 := C1_retry_policy.2.2.2.1 0 .failure
    (.success ⟨some "new", some (.num 3600)⟩) "e" "e2" none
    ⟨some "tok", none⟩ "new" 3600 (by decide) rfl
  have h500 := C1_retry_policy.2.2.2.2.1 0 .failure .failure 500 "boom"
    (.resp 200 "ok") none ⟨some "tok", none⟩ (by decide) (by decide) (by decide)
  have htr := C1_retry_policy.2.2.2.2.2 0 .failure .failure (.resp 200 "ok")
    none ⟨some "tok", none⟩ (by decide)
  exact ⟨h200.1, h200.2.1, h401.1, h401.2.2, h500.1, h500.2.2, htr.1⟩

end AvitoBot
